import Mathlib

/-!
Verification of the wampy WAMP peer library core against its specification.

The Python sources are shallowly embedded: JSON values become the inductive
type `Val`, WAMP messages are lists of `Val`, exceptions become an error
inductive `WErr` threaded through `Except`, the socket and the inbound
message queue become explicit lists of events, and each method under
scrutiny becomes a Lean function over those. Parts of the repository that
are imported but whose sources are not available (the message classes other
than Challenge and Authenticate, the frame codec, the client facade) are
modelled from the specification and marked as such in their doc comments.
-/

namespace Wampy

/-- A JSON value as it appears inside a decoded WAMP message list.
Only the constructors the embedded code paths touch are modelled. -/
inductive Val where
  | vNat : Nat → Val
  | vStr : String → Val
  | vList : List Val → Val
  | vDict : List (String × Val) → Val
  deriving Repr

/-- Python `==` between a decoded JSON value and an integer message code
(`wamp_code == Message.CHALLENGE` and the like): true exactly when the
value is that integer; comparison of a non-integer against an integer is
`False` in Python, never an error. -/
def Val.isCode (v : Val) (n : Nat) : Bool :=
  match v with
  | .vNat m => m == n
  | _ => false

/-- A decoded WAMP message: the JSON array `[code, ...fields]`. -/
abbrev Msg := List Val

/-- The exception kinds the embedded code can raise, mirroring the classes
in `wampy.errors` plus the Python builtin errors the code can hit. -/
inductive WErr where
  | wampError : String → WErr
  | wampProtocolError : String → WErr
  | wampyError : String → WErr
  | connectionError : String → WErr
  | valueError : WErr
  | typeError : WErr
  | indexError : WErr
  | keyError : WErr
  | attributeError : WErr
  deriving Repr, DecidableEq

/- WAMP message type codes, from `wampy.messages.message.Message` as used
throughout the sources (`Message.WELCOME`, `Message.CHALLENGE`, ...). -/
namespace Code

def HELLO : Nat := 1
def WELCOME : Nat := 2
def ABORT : Nat := 3
def CHALLENGE : Nat := 4
def AUTHENTICATE : Nat := 5
def GOODBYE : Nat := 6
def ERROR : Nat := 8
def SUBSCRIBED : Nat := 33
def EVENT : Nat := 36
def CALL : Nat := 48
def RESULT : Nat := 50
def REGISTERED : Nat := 65
def INVOCATION : Nat := 68
def YIELD : Nat := 70

end Code

/-- `MESSAGE_TYPE_MAP` from `wampy/messages/__init__.py`: the code of a
message type to its name; lookup of an absent code is a Python `KeyError`,
hence `Option`. -/
def MESSAGE_TYPE_MAP (code : Nat) : Option String :=
  match code with
  | 1 => some "HELLO"
  | 2 => some "WELCOME"
  | 3 => some "ABORT"
  | 4 => some "CHALLENGE"
  | 5 => some "AUTHENTICATE"
  | 6 => some "GOODBYE"
  | 8 => some "ERROR"
  | 16 => some "PUBLISH"
  | 32 => some "SUBSCRIBE"
  | 33 => some "SUBSCRIBED"
  | 36 => some "EVENT"
  | 48 => some "CALL"
  | 50 => some "RESULT"
  | 64 => some "REGISTER"
  | 65 => some "REGISTERED"
  | 66 => some "UNREGISTER"
  | 67 => some "UNREGISTERED"
  | 68 => some "INVOCATION"
  | 70 => some "YIELD"
  | _ => none

/-- The serialized `Hello` message `[1, realm, roles]`, the shape sent by
`Session._say_hello` (the `Hello` class source is not in scope; the shape
is fixed by the message table of the data model). -/
def helloMessage (realm : String) (roles : Val) : Msg :=
  [.vNat Code.HELLO, .vStr realm, roles]

/-- The serialized `Authenticate` message, from
`wampy/messages/authenticate.py`: `[5, signature, details]` where the
details default to the empty dict when not supplied. -/
def authenticateMessage (signature : Val) (details : Option Val) : Msg :=
  [.vNat Code.AUTHENTICATE, signature, details.getD (.vDict [])]

/-- Outcome of `Session._say_hello`: the messages sent over the transport,
in order, and the value assigned to `self.session_id`. -/
structure HelloOutcome where
  sent : List Msg
  sessionId : Val
  deriving Repr

/-- `Session.recv_message` from `wampy/session.py`: pop the next message
from the general inbound queue within `timeout` seconds; on
`eventlet.Timeout` raise `WampProtocolError("no message returned")`. The
queue and clock are abstracted into `reply`: `none` means the wait timed
out, `some m` means `m` arrived in time. After a successful wait the
method logs `MESSAGE_TYPE_MAP[message[0]]`; Python evaluates that
argument eagerly, so an empty message raises `IndexError`, an integer
code absent from the map (or a string first element) raises `KeyError`,
and an unhashable first element (a list or dict) raises `TypeError` —
all before the message is returned to the caller. -/
def recvMessage (_timeout : Nat) (reply : Option Msg) : Except WErr Msg :=
  match reply with
  | none => .error (.wampProtocolError "no message returned")
  | some m =>
    match m.head? with
    | none => .error .indexError
    | some (.vNat code) =>
      match MESSAGE_TYPE_MAP code with
      | none => .error .keyError
      | some _ => .ok m
    | some (.vStr _) => .error .keyError
    | some _ => .error .typeError

/-- Whether a dequeued message survives the eager logging lookup in
`recv_message`: its first element is an integer code present in
`MESSAGE_TYPE_MAP`. -/
def wellCoded (m : Msg) : Bool :=
  match m.head? with
  | some (.vNat code) => (MESSAGE_TYPE_MAP code).isSome
  | _ => false

/-- The tail of `Session._say_hello` after unpacking a terminal response
`[wampCode, sessionId, _]`: raise WampError unless the code is WELCOME or
ABORT, then assign `self.session_id`. -/
def sayHelloFinish (sent : List Msg) (wampCode : Val) (sessionId : Val) :
    Except WErr HelloOutcome :=
  if wampCode.isCode Code.WELCOME || wampCode.isCode Code.ABORT then
    .ok ⟨sent, sessionId⟩
  else
    .error (.wampError "unexpected response from HELLO message")

/-- `Session._say_hello` from `wampy/session.py`. The transport and the
inbound queue are abstracted into `stream`, the successive messages the
queue would hand to `recv_message`; an exhausted stream is the recv
timeout. Each receive goes through `recvMessage`, including its eager
logging lookup, so a response whose code is outside `MESSAGE_TYPE_MAP`
raises before any terminal check runs. The triple unpacking
`wamp_code, session_id, _ = response` raises `ValueError` unless the
response has exactly three elements. Note that on the CHALLENGE branch the
code passes the local variable `message` — still bound to the Hello
message object — to `onchallenge`. -/
def sayHello (realm : String) (roles : Val) (onchallenge : Option (Msg → Val))
    (stream : List Msg) : Except WErr HelloOutcome :=
  let hello := helloMessage realm roles
  match recvMessage 5 stream.head? with
  | .error e => .error e
  | .ok response =>
    match response with
    | [wampCode, sessionId, _] =>
      if wampCode.isCode Code.CHALLENGE then
        match onchallenge with
        | none =>
          .error (.wampError
            "Unable to respond to challenge as onchallenge has not been defined")
        | some oc =>
          let signature := oc hello
          let auth := authenticateMessage signature none
          match recvMessage 5 (stream.drop 1).head? with
          | .error e => .error e
          | .ok response2 =>
            match response2 with
            | [wampCode2, sessionId2, _] =>
              sayHelloFinish [hello, auth] wampCode2 sessionId2
            | _ => .error .valueError
      else
        sayHelloFinish [hello] wampCode sessionId
    | _ => .error .valueError

/-- Modelled from the spec: the `Goodbye` message class is not among the
available sources; per the specification `_say_goodbye` sends
`GOODBYE(details := empty dict, reason := wamp.close.normal)`, so its
serialized form is the triple below. -/
def goodbyeMessage : Msg :=
  [.vNat Code.GOODBYE, .vDict [], .vStr "wamp.close.normal"]

/-- Whether `Session.send_message` succeeds. It dereferences
`self._connection` (an `AttributeError` when the connection reference has
been dropped); `sendFails` stands for any exception out of the socket
send path, which `_say_goodbye` cannot predict. -/
def sendMessage (connectionAlias : Bool) (sendFails : Bool) : Except WErr Unit :=
  if !connectionAlias then .error .attributeError
  else if sendFails then .error (.connectionError "socket send failed")
  else .ok ()

/-- Trace of one `_say_goodbye` run: the messages sent and the timeout
value passed to `recv_message` when the receive was attempted. -/
structure GoodbyeTrace where
  sent : List Msg
  recvTimeout : Option Nat
  deriving Repr

/-- The body of the `try` block guarding the GOODBYE echo in
`Session._say_goodbye`: receive with timeout 2 and raise
`WampProtocolError` when the echoed message is not GOODBYE. Indexing
`message[0]` on an empty list is a Python `IndexError`. -/
def sayGoodbyeRecv (reply : Option Msg) : Except WErr Unit :=
  match recvMessage 2 reply with
  | .error e => .error e
  | .ok [] => .error .indexError
  | .ok (c :: _) =>
    if !(c.isCode Code.GOODBYE) then
      .error (.wampProtocolError "Unexpected response from GOODBYE message")
    else
      .ok ()

/-- `Session._say_goodbye` from `wampy/session.py`. Send GOODBYE; any
exception from the send is caught and logged and the receive is skipped.
Otherwise wait (timeout 2) for the echoed GOODBYE, catching only
`WampProtocolError` (server already gone away). -/
def sayGoodbye (connectionAlias : Bool) (sendFails : Bool) (reply : Option Msg) :
    Except WErr GoodbyeTrace :=
  match sendMessage connectionAlias sendFails with
  | .error _ => .ok ⟨[], none⟩
  | .ok _ =>
    match sayGoodbyeRecv reply with
    | .ok _ => .ok ⟨[goodbyeMessage], some 2⟩
    | .error (.wampProtocolError _) => .ok ⟨[goodbyeMessage], some 2⟩
    | .error e => .error e

/-- The parts of a `Session` object that its teardown path touches. The
`WebSocket` transport class defines no close or disconnect operation, so
the state of its underlying socket is recorded by `socketClosed`, which
nothing in the embedded code ever sets. `managedThread` is `none` before
`_listen_on_connection` spawned the reader green thread and `some alive`
afterwards. `connectionAlias` is whether `self._connection` still refers
to the transport. -/
structure SessionState where
  connectionAlias : Bool
  socketClosed : Bool
  managedThread : Option Bool
  subscriptionMap : List (String × Nat)
  registrationMap : List (String × Nat)
  sessionId : Option Val
  deriving Repr

/-- `Session._disconnet` from `wampy/session.py`: kill the managed reader
thread (an `AttributeError` when no thread was ever spawned), drop the
connection reference, and null the unused `session` attribute. The socket
itself is not touched. -/
def disconnet (s : SessionState) : Except WErr SessionState :=
  match s.managedThread with
  | none => .error .attributeError
  | some _ => .ok { s with managedThread := some false, connectionAlias := false }

/-- `Session.end` from `wampy/session.py`: `_say_goodbye()`, then
`_disconnet()`, then reset both maps and `session_id`. -/
def endSession (s : SessionState) (sendFails : Bool) (reply : Option Msg) :
    Except WErr SessionState :=
  match sayGoodbye s.connectionAlias sendFails reply with
  | .error e => .error e
  | .ok _ =>
    match disconnet s with
    | .error e => .error e
    | .ok s2 =>
      .ok { s2 with subscriptionMap := [], registrationMap := [],
                    sessionId := none }

/-- Modelled from the spec: `WEBSOCKET_VERSION` lives in `wampy/constants.py`,
which is not among the available sources; the specification fixes the
advertised WebSocket version to 13. -/
def WEBSOCKET_VERSION : Nat := 13

/-- Modelled from the spec: `WEBSOCKET_SUBPROTOCOLS` lives in
`wampy/constants.py`, which is not among the available sources; the
specification fixes the advertised subprotocol to `wamp.2.json`. -/
def WEBSOCKET_SUBPROTOCOLS : String := "wamp.2.json"

/-- `WebSocket._get_handshake_headers` from
`wampy/transports/websocket/connection.py`: the eight header lines
appended in source order. `location` is `websocket_location` after the
constructor stripped leading slashes, and `key` is the base64-encoded
16-byte `uuid4` value computed in the constructor, both opaque strings
here. -/
def getHandshakeHeaders (host location key : String) : List String :=
  [ "GET /" ++ location ++ " HTTP/1.1",
    "Host: " ++ host,
    "Upgrade: websocket",
    "Connection: Upgrade",
    "Sec-WebSocket-Key: " ++ key,
    "Origin: wss://" ++ host,
    "Sec-WebSocket-Version: " ++ toString WEBSOCKET_VERSION,
    "Sec-WebSocket-Protocol: " ++ WEBSOCKET_SUBPROTOCOLS ]

/-- The handshake text `WebSocket._upgrade` sends: the header lines
joined with CRLF, then the CRLF of the last line and the blank-line
terminator. -/
def handshakeRequest (host location key : String) : String :=
  String.intercalate "\r\n" (getHandshakeHeaders host location key) ++ "\r\n\r\n"

/-- A line as `_recv_handshake_response_by_line` returns it: the received
bytes decoded to characters, terminator included. -/
abbrev Line := List Char

/-- The characters Python `str.strip()` removes by default (the subset
that can occur in HTTP header lines). -/
def pyIsSpace (c : Char) : Bool :=
  c == ' ' || c == '\t' || c == '\n' || c == '\r'

/-- Python `s.strip()` on a line. -/
def pyStrip (s : List Char) : List Char :=
  ((s.dropWhile pyIsSpace).reverse.dropWhile pyIsSpace).reverse

/-- Python `s.split(sep)` for a one-character separator: split at every
occurrence, keeping empty fields. -/
def pySplitOn (sep : Char) : List Char → List (List Char)
  | [] => [[]]
  | c :: rest =>
    let r := pySplitOn sep rest
    if c == sep then [] :: r
    else
      match r with
      | [] => [[c]]
      | h :: t => (c :: h) :: t

/-- Rejoin fields with the separator, for the unsplit remainder of a
bounded Python `split`. -/
def pyJoin (sep : Char) : List (List Char) → List Char
  | [] => []
  | [x] => x
  | x :: xs => x ++ sep :: pyJoin sep xs

/-- Python `line.split(" ", 2)`: at most two splits, remainder joined. -/
def pySplitSpace2 (s : List Char) : List (List Char) :=
  match pySplitOn ' ' s with
  | [] => []
  | [a] => [a]
  | [a, b] => [a, b]
  | a :: b :: rest => [a, b, pyJoin ' ' rest]

/-- Python `line.split(":", 1)`: split at the first colon only. -/
def pySplitColon1 (s : List Char) : List (List Char) :=
  match pySplitOn ':' s with
  | [] => []
  | [a] => [a]
  | a :: rest => [a, pyJoin ':' rest]

/-- Python `int(token)` on the status token of an HTTP status line: a
nonempty digit string parses as a decimal numeral, anything else is a
`ValueError` (signs and inner whitespace, which no HTTP status carries,
are not modelled). -/
def pyIntDigits : List Char → Nat → Option Nat
  | [], acc => some acc
  | c :: rest, acc =>
    if c.isDigit then pyIntDigits rest (acc * 10 + (c.toNat - 48))
    else none

/-- Python `int(token)`, empty input refused. -/
def pyInt (s : List Char) : Option Nat :=
  match s with
  | [] => none
  | _ => pyIntDigits s 0

/-- Python `s.lower()`. -/
def pyLower (s : List Char) : List Char :=
  s.map Char.toLower

/-- A value in the `headers` dict built by `_read_handshake_response`:
`status_info` holds the split status line, `status` the parsed integer,
and ordinary headers hold their string value. -/
inductive HeaderVal where
  | hList : List (List Char) → HeaderVal
  | hNat : Nat → HeaderVal
  | hStr : List Char → HeaderVal
  deriving Repr, DecidableEq

/-- Outcome of `WebSocket._read_handshake_response`. `finished` carries
the status (none when no status line preceded the blank line) and the
accumulated header map; `raised` is an escaped Python exception; `blocked`
models the loop spinning forever on an exhausted socket, since
`_recv_handshake_response_by_line` then keeps returning empty reads. -/
inductive HandshakeReadResult where
  | finished : Option Nat → List (List Char × HeaderVal) → HandshakeReadResult
  | raised : WErr → HandshakeReadResult
  | blocked : HandshakeReadResult
  deriving Repr, DecidableEq

/-- `WebSocket._read_handshake_response` from
`wampy/transports/websocket/connection.py`, over the successive lines the
socket yields (terminators included, as `_recv_handshake_response_by_line`
returns them). Break on a bare line terminator; skip lines that strip to
empty; parse the first informative line as the status line, raising
`IndexError` when it has fewer than two space-separated fields and
`ValueError` when the second is not an integer; split every further line
at the first colon, raising on lines without one; lowercase header keys
and values. -/
def readHandshakeResponse (status : Option Nat)
    (headers : List (List Char × HeaderVal)) :
    List Line → HandshakeReadResult
  | [] => .blocked
  | line :: rest =>
    if line == ['\r', '\n'] || line == ['\n'] then
      .finished status headers
    else
      let stripped := pyStrip line
      if stripped == [] then
        readHandshakeResponse status headers rest
      else
        match status with
        | none =>
          let statusInfo := pySplitSpace2 stripped
          match statusInfo.get? 1 with
          | none => .raised .indexError
          | some second =>
            match pyInt second with
            | none => .raised .valueError
            | some n =>
              readHandshakeResponse (some n)
                (headers ++
                  [("status_info".data, .hList statusInfo),
                   ("status".data, .hNat n)]) rest
        | some _ =>
          match pySplitColon1 stripped with
          | [k, v] =>
            readHandshakeResponse status
              (headers ++ [(pyLower k, .hStr (pyLower (pyStrip v)))]) rest
          | _ => .raised (.wampError "Invalid header")

/-- Outcome of `WebSocket._upgrade`: the request text sent and whatever
`_read_handshake_response` produced, stored into `self.status` and
`self.headers`. The method performs no validation of the status. -/
inductive UpgradeResult where
  | upgraded : String → Option Nat → List (List Char × HeaderVal) → UpgradeResult
  | raised : WErr → UpgradeResult
  | blocked : UpgradeResult
  deriving Repr, DecidableEq

/-- `WebSocket._upgrade` from `wampy/transports/websocket/connection.py`:
send the handshake request, read the response, record status and headers,
return. -/
def upgrade (host location key : String) (lines : List Line) : UpgradeResult :=
  match readHandshakeResponse none [] lines with
  | .finished status headers =>
    .upgraded (handshakeRequest host location key) status headers
  | .raised e => .raised e
  | .blocked => .blocked

/-- Whether a list of received lines contains the bare line terminator on
which `_read_handshake_response` breaks. -/
def hasBlankLine (lines : List Line) : Bool :=
  lines.any (fun l => l == ['\r', '\n'] || l == ['\n'])

/-- One result of `socket.recv` inside `WebSocket.read_websocket_frame`:
either bytes came back (an empty read meaning the peer closed), or the
call raised (`greenlet.GreenletExit`, `socket.timeout`, or anything else
— all three except clauses rewrap into `ConnectionError`). -/
inductive RecvOutcome where
  | bytes : List Nat → RecvOutcome
  | raised : String → RecvOutcome
  deriving Repr

/-- Result of `WebSocket.read_websocket_frame`: a complete frame, a
`ConnectionError`, a `WampProtocolError`, or blocking forever on a recv
for which the modelled socket has no more outcomes. -/
inductive ReadFrameResult where
  | frame : Nat → ReadFrameResult
  | connError : String → ReadFrameResult
  | protoError : String → ReadFrameResult
  | blocked : ReadFrameResult
  deriving Repr, DecidableEq

/-- The receive loop of `WebSocket.read_websocket_frame`, carrying the
accumulated `received_bytes`. `parse` is the `ServerFrame` constructor
from the frame codec (not among the available sources): per the
specification it reports incomplete input as a normal control signal,
modelled as `none`. A raising recv becomes `ConnectionError`; an empty
recv breaks the loop with `frame` still `None`, after which the method
raises `WampProtocolError("No frame returned")`. -/
def readFrameLoop (parse : List Nat → Option Nat) (received : List Nat) :
    List RecvOutcome → ReadFrameResult
  | [] => .blocked
  | .raised k :: _ => .connError k
  | .bytes [] :: _ => .protoError "No frame returned"
  | .bytes bs :: rest =>
    let received2 := received ++ bs
    match parse received2 with
    | some f => .frame f
    | none => readFrameLoop parse received2 rest

/-- `WebSocket.read_websocket_frame` from
`wampy/transports/websocket/connection.py`, as a function of the sequence
of recv outcomes the socket yields. -/
def readWebsocketFrame (parse : List Nat → Option Nat)
    (stream : List RecvOutcome) : ReadFrameResult :=
  readFrameLoop parse [] stream

/-- What one iteration of the `connection_handler` loop inside
`Session._listen_on_connection` does with the result of
`read_websocket_frame`: a frame is handed to the message handler and the
loop continues; `ConnectionError` and `WampProtocolError` are in the
except clause and break the loop; any other exception out of the handler
escapes and kills the reader thread. -/
inductive LoopStep where
  | continues : LoopStep
  | breaks : LoopStep
  | crashes : WErr → LoopStep
  | stuck : LoopStep
  deriving Repr, DecidableEq

/-- One iteration of the dispatcher loop in `Session._listen_on_connection`,
with `handler` the bound `self.message_handler` applied to the frame
payload. -/
def listenStep (r : ReadFrameResult) (handler : Nat → Except WErr Unit) : LoopStep :=
  match r with
  | .frame f =>
    match handler f with
    | .ok _ => .continues
    | .error (.connectionError _) => .breaks
    | .error (.wampProtocolError _) => .breaks
    | .error e => .crashes e
  | .connError _ => .breaks
  | .protoError _ => .breaks
  | .blocked => .stuck

/-- The WAMP codes of the default `messages_to_handle` list in
`MessageHandler.__init__` from `wampy/messages/handlers/default.py`:
Welcome, Challenge, Goodbye, Registered, Invocation, Yield, Result,
Error, Subscribed, Event — `_configure_messages` keys the handler map
by each class `WAMP_CODE`. -/
def acceptedCodes : List Nat :=
  [Code.WELCOME, Code.CHALLENGE, Code.GOODBYE, Code.REGISTERED,
   Code.INVOCATION, Code.YIELD, Code.RESULT, Code.ERROR,
   Code.SUBSCRIBED, Code.EVENT]

/-- Element counts `message_class(*message)` accepts without a
`TypeError`, per accepted code. The `Challenge` constructor (in the
sources) takes exactly three positional arguments. The other classes are
not among the available sources; modelled from the spec: each accepts the
required positional schema of the message table, with the optional
trailing `args`/`kwargs` elements defaulted. -/
def constructArity (code : Nat) : Option (Nat × Nat) :=
  if code = Code.WELCOME then some (3, 3)
  else if code = Code.CHALLENGE then some (3, 3)
  else if code = Code.GOODBYE then some (3, 3)
  else if code = Code.REGISTERED then some (3, 3)
  else if code = Code.INVOCATION then some (4, 6)
  else if code = Code.YIELD then some (3, 5)
  else if code = Code.RESULT then some (3, 5)
  else if code = Code.ERROR then some (5, 7)
  else if code = Code.SUBSCRIBED then some (3, 3)
  else if code = Code.EVENT then some (4, 6)
  else none

/-- Whether `message_class(*message)` constructs without raising for the
given accepted code. -/
def constructOk (code : Nat) (message : Msg) : Bool :=
  match constructArity code with
  | some (lo, hi) => lo ≤ message.length && message.length ≤ hi
  | none => false

/-- `MessageHandler.handle_message` from
`wampy/messages/handlers/default.py`, with the message queue threaded
explicitly. `message[0]` on an empty list is an `IndexError`; a code
outside the configured map raises `WampyError`, except that formatting
that error message looks the code up in `MESSAGE_TYPE_MAP`, a `KeyError`
for unknown codes and for non-integer first elements; a wrong element
count is a `TypeError` out of `message_class(*message)`. The
`message_obj.process` call is modelled from the spec as effect-free
towards the general queue: role-correlated processing touches the role
sinks, and handler exceptions are never propagated to the reader. After
construction and processing, the raw message is put on the queue. -/
def handleMessage (queue : List Msg) (message : Msg) : Except WErr (List Msg) :=
  match message.head? with
  | none => .error .indexError
  | some (.vNat code) =>
    if acceptedCodes.contains code then
      if constructOk code message then
        .ok (queue ++ [message])
      else
        .error .typeError
    else
      match MESSAGE_TYPE_MAP code with
      | some name =>
        .error (.wampyError ("No message handler is configured for: " ++ name))
      | none => .error .keyError
  | some _ => .error .keyError

/-- `CallProxy.__call__` from `wampy/roles/caller.py`, as a function of
the correlated reply. The client round trip
`send_message_and_wait_for_response` is not among the available sources;
modelled from the spec: it returns the RESULT or ERROR correlated with
the sent CALL, which is the `response` parameter here. On ERROR the
response list itself is returned; on RESULT element 0 of `response[3]` is
returned (an `IndexError` when absent, a `TypeError` when `response[3]`
is not a list); any other code raises `WampProtocolError`. -/
def callProxyCall (response : Msg) : Except WErr Val :=
  match response.head? with
  | none => .error .indexError
  | some wampCode =>
    if wampCode.isCode Code.ERROR then
      .ok (.vList response)
    else if wampCode.isCode Code.RESULT then
      match response.get? 3 with
      | none => .error .indexError
      | some (.vList results) =>
        match results.head? with
        | none => .error .indexError
        | some r => .ok r
      | some _ => .error .typeError
    else
      .error (.wampProtocolError "unexpected response")

/-- The wrapper `RpcProxy.__getattr__` returns, from
`wampy/roles/caller.py`, as a function of the correlated reply (the
client round trip modelled from the spec as for `callProxyCall`). Any
reply whose code is not RESULT raises `WampProtocolError`; building that
error message first evaluates `MESSAGE_TYPE_MAP[wamp_code]` (a `KeyError`
for unknown codes) and `response[5]` (an `IndexError` when the reply has
at most five elements). -/
def rpcProxyCall (response : Msg) : Except WErr Val :=
  match response.head? with
  | none => .error .indexError
  | some wampCode =>
    if !(wampCode.isCode Code.RESULT) then
      match wampCode with
      | .vNat code =>
        match MESSAGE_TYPE_MAP code with
        | none => .error .keyError
        | some _ =>
          match response.get? 5 with
          | none => .error .indexError
          | some _ => .error (.wampProtocolError "unexpected message code")
      | _ => .error .keyError
    else
      match response.get? 3 with
      | none => .error .indexError
      | some (.vList results) =>
        match results.head? with
        | none => .error .indexError
        | some r => .ok r
      | some _ => .error .typeError

/-- Claim C1, counterexample: when the terminal response of the
`_say_hello` exchange is an ABORT message carrying a reason URI,
`_say_hello` does not fail with an auth error — it returns successfully
and assigns `session_id` from the second element of the ABORT, which is
its details dict. -/
theorem sayHello_abort_sets_session_id :
    sayHello "realm1" (.vDict []) none
      [[.vNat Code.ABORT, .vDict [], .vStr "wamp.error.not_authorized"]] =
      .ok ⟨[helloMessage "realm1" (.vDict [])], .vDict []⟩ := rfl

/-- Claim C1, amended: the terminal response of the `_say_hello` exchange
(the first response, or the one following the AUTHENTICATE reply to a
CHALLENGE) first passes through the eager logging lookup of
`recv_message`: an integer code outside `MESSAGE_TYPE_MAP` fails there
with `KeyError` (a string code with `KeyError`, an unhashable one with
`TypeError`) before any terminal check runs. A response whose code
survives the lookup is then handled as follows: WELCOME sets `session_id`
from its second element; an ABORT is accepted in exactly the same way,
setting `session_id` to the second element of the ABORT without failing;
every other in-map terminal code fails with `WampError`. -/
theorem sayHello_terminal_behavior
    (realm : String) (roles : Val) (onch : Option (Msg → Val)) (oc : Msg → Val)
    (wc sid third wc2 sid2 third2 : Val) (rest rest2 : List Msg)
    (hwc : wc.isCode Code.CHALLENGE = false) :
    (sayHello realm roles onch ([wc, sid, third] :: rest) =
      match wc with
      | .vNat code =>
        match MESSAGE_TYPE_MAP code with
        | none => .error .keyError
        | some _ =>
          if wc.isCode Code.WELCOME || wc.isCode Code.ABORT then
            .ok ⟨[helloMessage realm roles], sid⟩
          else
            .error (.wampError "unexpected response from HELLO message")
      | .vStr _ => .error .keyError
      | _ => .error .typeError) ∧
    (sayHello realm roles (some oc)
        ([Val.vNat Code.CHALLENGE, sid, third] :: [wc2, sid2, third2] :: rest2) =
      match wc2 with
      | .vNat code2 =>
        match MESSAGE_TYPE_MAP code2 with
        | none => .error .keyError
        | some _ =>
          if wc2.isCode Code.WELCOME || wc2.isCode Code.ABORT then
            .ok ⟨[helloMessage realm roles,
                  authenticateMessage (oc (helloMessage realm roles)) none],
                 sid2⟩
          else
            .error (.wampError "unexpected response from HELLO message")
      | .vStr _ => .error .keyError
      | _ => .error .typeError) := by
  constructor
  · rcases wc with code | t | l | d
    · rcases hm : MESSAGE_TYPE_MAP code with _ | name <;>
        simp [sayHello, recvMessage, sayHelloFinish, hm, hwc]
    · simp [sayHello, recvMessage]
    · simp [sayHello, recvMessage]
    · simp [sayHello, recvMessage]
  · have h4m : MESSAGE_TYPE_MAP Code.CHALLENGE = some "CHALLENGE" := rfl
    have h4c : (Val.vNat Code.CHALLENGE).isCode Code.CHALLENGE = true := rfl
    rcases wc2 with code2 | t | l | d
    · rcases hm : MESSAGE_TYPE_MAP code2 with _ | name <;>
        simp [sayHello, recvMessage, sayHelloFinish, hm, h4m, h4c]
    · simp [sayHello, recvMessage, h4m, h4c]
    · simp [sayHello, recvMessage, h4m, h4c]
    · simp [sayHello, recvMessage, h4m, h4c]

/-- Witness for the amended claim C1, applying it to a WELCOME terminal
response and to a CHALLENGE followed by an ABORT. -/
theorem sayHello_terminal_behavior_witness :
    ((Val.vNat Code.WELCOME).isCode Code.CHALLENGE = false) ∧
    ((sayHello "realm1" (.vDict []) none
        [[Val.vNat Code.WELCOME, Val.vNat 7, Val.vDict []]] =
      match Val.vNat Code.WELCOME with
      | .vNat code =>
        match MESSAGE_TYPE_MAP code with
        | none => .error .keyError
        | some _ =>
          if (Val.vNat Code.WELCOME).isCode Code.WELCOME ||
             (Val.vNat Code.WELCOME).isCode Code.ABORT then
            .ok ⟨[helloMessage "realm1" (.vDict [])], Val.vNat 7⟩
          else
            .error (.wampError "unexpected response from HELLO message")
      | .vStr _ => .error .keyError
      | _ => .error .typeError) ∧
     (sayHello "realm1" (.vDict []) (some (fun _ => Val.vStr "sig"))
        ([Val.vNat Code.CHALLENGE, Val.vStr "wampcra", Val.vDict []] ::
         [Val.vNat Code.ABORT, Val.vDict [], Val.vStr "wamp.error.no"] :: []) =
      match Val.vNat Code.ABORT with
      | .vNat code2 =>
        match MESSAGE_TYPE_MAP code2 with
        | none => .error .keyError
        | some _ =>
          if (Val.vNat Code.ABORT).isCode Code.WELCOME ||
             (Val.vNat Code.ABORT).isCode Code.ABORT then
            .ok ⟨[helloMessage "realm1" (.vDict []),
                  authenticateMessage
                    ((fun _ => Val.vStr "sig")
                      (helloMessage "realm1" (.vDict []))) none],
                 Val.vDict []⟩
          else
            .error (.wampError "unexpected response from HELLO message")
      | .vStr _ => .error .keyError
      | _ => .error .typeError)) :=
  ⟨rfl,
   sayHello_terminal_behavior "realm1" (.vDict []) none (fun _ => Val.vStr "sig")
     (Val.vNat Code.WELCOME) (Val.vNat 7) (Val.vDict [])
     (Val.vNat Code.ABORT) (Val.vDict []) (Val.vStr "wamp.error.no") [] [] rfl⟩

/-- Claim C2: with an on-challenge callback supplied, a CHALLENGE
response makes `_say_hello` invoke the callback — but on the HELLO
message object it sent earlier (the local variable `message`), not on the
method and extra fields of the CHALLENGE; the callback result is then
sent as the signature of an AUTHENTICATE message with empty details. A
recording callback exhibits the argument: the signature sent below is the
serialized HELLO, while the method `wampcra` and the extra dict of the
CHALLENGE appear nowhere in it. -/
theorem sayHello_challenge_calls_back_with_hello :
    sayHello "realm1" (.vDict []) (some (fun m => .vList m))
      [[.vNat Code.CHALLENGE, .vStr "wampcra",
        .vDict [("challenge", .vStr "nonce")]],
       [.vNat Code.WELCOME, .vNat 17, .vDict []]] =
      .ok ⟨[helloMessage "realm1" (.vDict []),
            [.vNat Code.AUTHENTICATE,
             .vList (helloMessage "realm1" (.vDict [])), .vDict []]],
           .vNat 17⟩ := rfl

/-- Claim C6: the default message handler pushes inbound WELCOME,
CHALLENGE and GOODBYE messages onto the general inbound queue, but an
ABORT message is not in its accepted set: `handle_message` raises
`WampyError` for it and the ABORT never reaches the queue, although the
session lifecycle code is written to receive ABORT from that queue. -/
theorem handler_rejects_abort :
    handleMessage [] [.vNat Code.WELCOME, .vNat 1, .vDict []] =
      .ok [[.vNat Code.WELCOME, .vNat 1, .vDict []]] ∧
    handleMessage [] [.vNat Code.CHALLENGE, .vStr "wampcra", .vDict []] =
      .ok [[.vNat Code.CHALLENGE, .vStr "wampcra", .vDict []]] ∧
    handleMessage [] [.vNat Code.GOODBYE, .vDict [], .vStr "wamp.close.normal"] =
      .ok [[.vNat Code.GOODBYE, .vDict [], .vStr "wamp.close.normal"]] ∧
    handleMessage [] [.vNat Code.ABORT, .vDict [], .vStr "wamp.error.not_authorized"] =
      .error (.wampyError "No message handler is configured for: ABORT") :=
  ⟨rfl, rfl, rfl, rfl⟩

/-- Claim C7, counterexample: when the peer closes the socket (recv
returns no bytes) before a complete frame arrived, `read_websocket_frame`
fails with `WampProtocolError("No frame returned")`, not with
`ConnectionError` as claimed. -/
theorem read_frame_peer_close_not_conn_error :
    readWebsocketFrame (fun _ => none) [.bytes []] =
      .protoError "No frame returned" := rfl

/-- Claim C7, amended: a socket read that raises makes
`read_websocket_frame` fail with `ConnectionError`; a peer close (an
empty recv) before a complete frame makes it fail with
`WampProtocolError`; the dispatcher loop stops on either, both being in
its except clause. -/
theorem read_frame_connection_loss :
    (∀ (parse : List Nat → Option Nat) (received : List Nat) (k : String)
       (rest : List RecvOutcome),
       readFrameLoop parse received (.raised k :: rest) = .connError k) ∧
    (∀ (parse : List Nat → Option Nat) (received : List Nat)
       (rest : List RecvOutcome),
       readFrameLoop parse received (.bytes [] :: rest) =
         .protoError "No frame returned") ∧
    (∀ (m : String) (handler : Nat → Except WErr Unit),
       listenStep (.connError m) handler = .breaks) ∧
    (∀ (m : String) (handler : Nat → Except WErr Unit),
       listenStep (.protoError m) handler = .breaks) :=
  ⟨fun _ _ _ _ => rfl, fun _ _ _ => rfl, fun _ _ => rfl, fun _ _ => rfl⟩

/-- Claim C8: `_say_goodbye` sends the GOODBYE message, waits for the
echoed GOODBYE passing timeout 2 to `recv_message`, and when that wait
times out it returns successfully (the `WampProtocolError` the timeout
becomes is swallowed). -/
theorem say_goodbye_timeout_ok :
    sayGoodbye true false none = .ok ⟨[goodbyeMessage], some 2⟩ ∧
    goodbyeMessage.head? = some (.vNat Code.GOODBYE) :=
  ⟨rfl, rfl⟩

/-- Claim C10: for every inbound message whose first element is a code in
the default handler accepted set, once the message object constructs,
`handle_message` puts the raw message onto the general message queue,
whatever its type — so role-correlated messages such as RESULT and
REGISTERED also reach the queue `recv_message` pops from. -/
theorem handler_queues_accepted (queue : List Msg) (message : Msg) (code : Nat)
    (hhead : message.head? = some (.vNat code))
    (hacc : acceptedCodes.contains code = true)
    (hctor : constructOk code message = true) :
    handleMessage queue message = .ok (queue ++ [message]) := by
  cases message with
  | nil => simp at hhead
  | cons a tail =>
    simp only [List.head?, Option.some.injEq] at hhead
    subst hhead
    simp only [handleMessage, List.head?, hacc, hctor]
    simp

/-- Claim C3, counterexample: an ERROR reply delivered through the
`RpcProxy` call path raises `WampProtocolError` instead of being returned
as a value. -/
theorem rpcProxy_raises_on_error_reply :
    rpcProxyCall
      [.vNat Code.ERROR, .vNat Code.CALL, .vNat 1, .vDict [],
       .vStr "wamp.error.no_such_procedure", .vList [], .vDict []] =
      .error (.wampProtocolError "unexpected message code") := rfl

/-- Claim C3, amended: through `CallProxy`, a RESULT reply returns
element 0 of the args list carried in position 3 of the message, and an
ERROR reply is returned verbatim as a value; through `RpcProxy`, a RESULT
reply returns the same extraction but every non-RESULT reply, ERROR
included, raises instead of returning a value. -/
theorem caller_proxies_result_and_error :
    (∀ response : Msg, response.head? = some (.vNat Code.ERROR) →
      callProxyCall response = .ok (.vList response)) ∧
    (∀ (response : Msg) (r : Val) (rs : List Val),
      response.head? = some (.vNat Code.RESULT) →
      response.get? 3 = some (.vList (r :: rs)) →
      callProxyCall response = .ok r ∧ rpcProxyCall response = .ok r) ∧
    (∀ (response : Msg) (code : Nat) (v : Val),
      response.head? = some (.vNat code) → code ≠ Code.RESULT →
      rpcProxyCall response ≠ .ok v) := by
  refine ⟨?_, ?_, ?_⟩
  · intro response h
    cases response with
    | nil => simp at h
    | cons a tail =>
      have ha : a = .vNat Code.ERROR := by simpa using h
      subst ha
      rfl
  · intro response r rs hhead hget
    cases response with
    | nil => simp at hhead
    | cons a tail =>
      have ha : a = .vNat Code.RESULT := by simpa using hhead
      subst ha
      have hg2 : tail[2]? = some (Val.vList (r :: rs)) := by simpa using hget
      constructor
      · simp [callProxyCall, Val.isCode, hg2, Code.RESULT, Code.ERROR]
      · simp [rpcProxyCall, Val.isCode, hg2, Code.RESULT]
  · intro response code v hhead hne
    cases response with
    | nil => simp at hhead
    | cons a tail =>
      have ha : a = .vNat code := by simpa using hhead
      subst ha
      rcases hm : MESSAGE_TYPE_MAP code with _ | name <;>
        rcases hg : tail[4]? with _ | x <;>
          simp [rpcProxyCall, Val.isCode, hm, hg, hne]

/-- Witness for the amended claim C3: an ERROR reply through `CallProxy`
comes back as a value, a RESULT reply yields args element 0 through both
proxies, and a non-RESULT reply through `RpcProxy` is never a value. -/
theorem caller_proxies_result_and_error_witness :
    callProxyCall [Val.vNat Code.ERROR, Val.vNat Code.CALL, Val.vNat 1,
        Val.vDict [], Val.vStr "wamp.error.no_such_procedure"] =
      .ok (.vList [Val.vNat Code.ERROR, Val.vNat Code.CALL, Val.vNat 1,
        Val.vDict [], Val.vStr "wamp.error.no_such_procedure"]) ∧
    (callProxyCall [Val.vNat Code.RESULT, Val.vNat 1, Val.vDict [],
        Val.vList [Val.vNat 42]] = .ok (Val.vNat 42) ∧
     rpcProxyCall [Val.vNat Code.RESULT, Val.vNat 1, Val.vDict [],
        Val.vList [Val.vNat 42]] = .ok (Val.vNat 42)) ∧
    rpcProxyCall [Val.vNat Code.SUBSCRIBED, Val.vNat 1, Val.vNat 2] ≠
      .ok (Val.vStr "x") :=
  ⟨caller_proxies_result_and_error.1 _ rfl,
   caller_proxies_result_and_error.2.1 _ (Val.vNat 42) [] rfl rfl,
   caller_proxies_result_and_error.2.2 _ Code.SUBSCRIBED (Val.vStr "x")
     rfl (by decide)⟩

/-- Helper: `_say_goodbye` returns successfully whenever any reply the
inbound queue hands it survives the eager logging lookup of
`recv_message` (an integer code present in `MESSAGE_TYPE_MAP`) —
timeouts, non-GOODBYE replies and send failures are all swallowed, but a
reply with an unknown code raises `KeyError` inside `recv_message`,
which the except clause around the GOODBYE echo does not catch. -/
theorem sayGoodbye_isOk (ca sf : Bool) (reply : Option Msg)
    (hreply : ∀ m, reply = some m → wellCoded m = true) :
    ∃ t, sayGoodbye ca sf reply = .ok t := by
  cases ca with
  | false => exact ⟨⟨[], none⟩, rfl⟩
  | true =>
    cases sf with
    | true => exact ⟨⟨[], none⟩, rfl⟩
    | false =>
      cases reply with
      | none => exact ⟨⟨[goodbyeMessage], some 2⟩, rfl⟩
      | some m =>
        have hw := hreply m rfl
        cases m with
        | nil => simp [wellCoded] at hw
        | cons c restm =>
          rcases c with code | t | l | d
          · simp only [wellCoded, List.head?] at hw
            rcases hm : MESSAGE_TYPE_MAP code with _ | name
            · rw [hm] at hw
              simp at hw
            · refine ⟨⟨[goodbyeMessage], some 2⟩, ?_⟩
              simp only [sayGoodbye, sendMessage, sayGoodbyeRecv, recvMessage,
                List.head?, hm]
              cases h : (Val.vNat code).isCode Code.GOODBYE <;> simp [h]
          · simp [wellCoded] at hw
          · simp [wellCoded] at hw
          · simp [wellCoded] at hw

/-- Claim C4, counterexample: after `end()` on an established session the
transport socket has not been closed — the `WebSocket` class has no close
operation and `_disconnet` only kills the reader thread and drops the
connection reference, so the socket-closed flag is still false in the
state `end()` returns. -/
theorem end_session_socket_left_open :
    endSession
        ⟨true, false, some true, [("topic", 1)], [("proc", 2)], some (.vNat 99)⟩
        false none =
      .ok ⟨false, false, some false, [], [], none⟩ := rfl

/-- Claim C4, amended: after `end()` on a session whose reader thread was
spawned, and whose echoed-GOODBYE wait either times out or hands back a
message whose code survives the eager logging lookup of `recv_message`,
the reader thread is killed and the connection reference dropped,
`subscription_map` and `registration_map` are empty and `session_id` is
unset — but the transport socket is not closed, its state being
untouched; a second `end()` under any conditions succeeds and returns the
same state. When the echo instead carries a code unknown to
`MESSAGE_TYPE_MAP`, the `KeyError` from `recv_message` escapes `end()`
and no cleanup happens at all. -/
theorem end_session_cleanup (s : SessionState) (b : Bool) (sf sf2 : Bool)
    (reply reply2 : Option Msg)
    (hthread : s.managedThread = some b)
    (hreply : ∀ m, reply = some m → wellCoded m = true) :
    (endSession s sf reply =
      .ok { s with connectionAlias := false, managedThread := some false,
                   subscriptionMap := [], registrationMap := [],
                   sessionId := none } ∧
    endSession
        { s with connectionAlias := false, managedThread := some false,
                 subscriptionMap := [], registrationMap := [],
                 sessionId := none } sf2 reply2 =
      .ok { s with connectionAlias := false, managedThread := some false,
                   subscriptionMap := [], registrationMap := [],
                   sessionId := none }) ∧
    endSession ⟨true, false, some true, [("topic", 1)], [("proc", 2)],
        some (Val.vNat 99)⟩ false (some [Val.vNat 99, Val.vDict []]) =
      .error .keyError := by
  obtain ⟨t, ht⟩ := sayGoodbye_isOk s.connectionAlias sf reply hreply
  refine ⟨⟨?_, rfl⟩, rfl⟩
  simp only [endSession, ht, disconnet, hthread]

/-- Witness for the amended claim C4 on a concrete established session. -/
theorem end_session_cleanup_witness :
    (⟨true, false, some true, [("topic", 1)], [("proc", 2)],
        some (Val.vNat 9)⟩ : SessionState).managedThread = some true ∧
    (∀ m, (none : Option Msg) = some m → wellCoded m = true) ∧
    ((endSession
        ⟨true, false, some true, [("topic", 1)], [("proc", 2)], some (Val.vNat 9)⟩
        false none =
      .ok ⟨false, false, some false, [], [], none⟩ ∧
     endSession ⟨false, false, some false, [], [], none⟩ true none =
      .ok ⟨false, false, some false, [], [], none⟩) ∧
     endSession ⟨true, false, some true, [("topic", 1)], [("proc", 2)],
        some (Val.vNat 99)⟩ false (some [Val.vNat 99, Val.vDict []]) =
      .error .keyError) :=
  ⟨rfl, fun _ h => Option.noConfusion h,
   end_session_cleanup
     ⟨true, false, some true, [("topic", 1)], [("proc", 2)], some (Val.vNat 9)⟩
     true false true none none rfl (fun _ h => Option.noConfusion h)⟩

/-- Claim C5, counterexample: a handshake response with status 200 does
not fail — `_upgrade` records status 200 and completes once the blank
line is observed; no protocol error is raised for the non-101 status. -/
theorem upgrade_ignores_non_101_status :
    upgrade "example.com" "ws" "KEY"
      ["HTTP/1.1 200 OK\r\n".data, "\r\n".data] =
      .upgraded (handshakeRequest "example.com" "ws" "KEY") (some 200)
        [("status_info".data, .hList ["HTTP/1.1".data, "200".data, "OK".data]),
         ("status".data, .hNat 200)] := rfl

/-- Claim C5, amended: the connection is considered upgraded only when
the blank-line terminator of the response has been observed; the status
code is parsed and recorded but never validated, so a non-101 status
(here 200, for any request parameters) upgrades all the same instead of
failing with a protocol error. -/
theorem upgrade_blank_line_no_validation :
    (∀ (lines : List Line) (status0 : Option Nat)
       (headers0 : List (List Char × HeaderVal)) (st : Option Nat)
       (hs : List (List Char × HeaderVal)),
       readHandshakeResponse status0 headers0 lines = .finished st hs →
       hasBlankLine lines = true) ∧
    (∀ host location key : String,
       upgrade host location key ["HTTP/1.1 200 OK\r\n".data, "\r\n".data] =
         .upgraded (handshakeRequest host location key) (some 200)
           [("status_info".data, .hList ["HTTP/1.1".data, "200".data, "OK".data]),
            ("status".data, .hNat 200)]) := by
  constructor
  · intro lines
    induction lines with
    | nil =>
      intro status0 headers0 st hs h
      simp [readHandshakeResponse] at h
    | cons line rest ih =>
      intro status0 headers0 st hs h
      simp only [readHandshakeResponse] at h
      by_cases hbl : (line == ['\r', '\n'] || line == ['\n']) = true
      · simp [hasBlankLine, hbl]
      · rw [if_neg hbl] at h
        have hrest : hasBlankLine rest = true := by
          split at h
          · exact ih _ _ _ _ h
          · split at h
            · split at h
              · exact absurd h (by simp)
              · split at h
                · exact absurd h (by simp)
                · exact ih _ _ _ _ h
            · split at h
              · exact ih _ _ _ _ h
              · exact absurd h (by simp)
        simp [hasBlankLine] at hrest ⊢
        exact Or.inr hrest
  · intro host location key
    rfl

/-- Witness for the amended claim C5: the blank-line direction applied to
a one-line response, and the non-validated 200 upgrade at concrete
request parameters. -/
theorem upgrade_blank_line_no_validation_witness :
    (readHandshakeResponse none [] ["\r\n".data] = .finished none [] →
      hasBlankLine ["\r\n".data] = true) ∧
    hasBlankLine ["\r\n".data] = true ∧
    upgrade "example.com" "ws" "KEY"
        ["HTTP/1.1 200 OK\r\n".data, "\r\n".data] =
      .upgraded (handshakeRequest "example.com" "ws" "KEY") (some 200)
        [("status_info".data, .hList ["HTTP/1.1".data, "200".data, "OK".data]),
         ("status".data, .hNat 200)] :=
  ⟨upgrade_blank_line_no_validation.1 ["\r\n".data] none [] none [],
   upgrade_blank_line_no_validation.1 ["\r\n".data] none [] none [] rfl,
   upgrade_blank_line_no_validation.2 "example.com" "ws" "KEY"⟩

set_option maxRecDepth 4096 in
/-- Claim C9: the upgrade request consists of exactly the eight lines of
the specification, in order — request line, Host, Upgrade, Connection,
Sec-WebSocket-Key, Origin, Sec-WebSocket-Version 13 and
Sec-WebSocket-Protocol wamp.2.json — each terminated by CRLF, with a
blank-line terminator at the end. -/
theorem handshake_request_lines (host location key : String) :
    getHandshakeHeaders host location key =
      ["GET /" ++ location ++ " HTTP/1.1",
       "Host: " ++ host,
       "Upgrade: websocket",
       "Connection: Upgrade",
       "Sec-WebSocket-Key: " ++ key,
       "Origin: wss://" ++ host,
       "Sec-WebSocket-Version: 13",
       "Sec-WebSocket-Protocol: wamp.2.json"] ∧
    handshakeRequest host location key =
      "GET /" ++ location ++ " HTTP/1.1" ++ "\r\n" ++
      "Host: " ++ host ++ "\r\n" ++
      "Upgrade: websocket" ++ "\r\n" ++
      "Connection: Upgrade" ++ "\r\n" ++
      "Sec-WebSocket-Key: " ++ key ++ "\r\n" ++
      "Origin: wss://" ++ host ++ "\r\n" ++
      "Sec-WebSocket-Version: 13" ++ "\r\n" ++
      "Sec-WebSocket-Protocol: wamp.2.json" ++ "\r\n" ++ "\r\n" := by
  have hlines : getHandshakeHeaders host location key =
      ["GET /" ++ location ++ " HTTP/1.1",
       "Host: " ++ host,
       "Upgrade: websocket",
       "Connection: Upgrade",
       "Sec-WebSocket-Key: " ++ key,
       "Origin: wss://" ++ host,
       "Sec-WebSocket-Version: 13",
       "Sec-WebSocket-Protocol: wamp.2.json"] := rfl
  refine ⟨hlines, ?_⟩
  rw [handshakeRequest, hlines]
  apply String.ext
  have hsplit : ("\r\n\r\n" : String).data =
      ("\r\n" : String).data ++ ("\r\n" : String).data := rfl
  simp [String.intercalate, String.intercalate.go, String.data_append,
    hsplit, List.append_assoc]

/-- Witness for claim C10 at a concrete RESULT message. -/
theorem handler_queues_accepted_witness :
    ([Val.vNat Code.RESULT, Val.vNat 1, Val.vDict [],
      Val.vList [Val.vNat 42]] : Msg).head? = some (.vNat Code.RESULT) ∧
    acceptedCodes.contains Code.RESULT = true ∧
    constructOk Code.RESULT
      [Val.vNat Code.RESULT, Val.vNat 1, Val.vDict [], Val.vList [Val.vNat 42]] = true ∧
    handleMessage []
      [Val.vNat Code.RESULT, Val.vNat 1, Val.vDict [], Val.vList [Val.vNat 42]] =
      .ok [[Val.vNat Code.RESULT, Val.vNat 1, Val.vDict [], Val.vList [Val.vNat 42]]] :=
  ⟨rfl, rfl, rfl,
   handler_queues_accepted [] _ Code.RESULT rfl rfl rfl⟩

end Wampy
